import Mathlib

/-!
Shallow embedding of the Email-Scheduler server (Express + BullMQ + Sequelize
+ Redis).  The embedding covers:

* `models.js`   — the `EmailLog` record and its status enum;
* `worker.js`   — `checkRateLimit`, `incrementRateLimit`, `getDelayToNextHour`
  and the BullMQ worker's job processor, modelled as a pure state-passing
  function `processJob` over a `SystemState` (EmailLog table, Redis counters
  and expiries, queue contents) that also emits a trace of the I/O actions the
  processor performs in order;
* `queue.js`    — the queue's `defaultJobOptions` (attempts / backoff);
* `server.js`   — the `POST /schedule` and `DELETE /emails/:id` handlers.

External collaborators (Redis, the SQL store, the SMTP transport, the BullMQ
engine) are represented by explicit state components and parameters: the
transport outcome is a boolean parameter `sendOk`, wall-clock time is an
explicit `DateTime` / epoch-milliseconds argument.

A central fact of `worker.js` is embedded as such: the module references
three identifiers it never binds — `redisConnection` (lines 32/46/48; it
defines `connection` at line 10 and never imports queue.js's export),
`createTransporter` (line 66; it defines `transporter` at line 16) and
`emailQueue` (line 128) — and in an ES module reading an unbound identifier
throws a `ReferenceError`.  `checkRateLimit` and `incrementRateLimit`
therefore throw on every invocation, and the processor's throttle, send,
pacing, increment and SENT-write code is unreachable; the definitions below
model those throws, and `CheckAndReserveSpec` / `IncrementSpec` state
separately what the dead body text / the spec intended.
-/

namespace EmailScheduler

/-- Status enum of the `EmailLog` model (`models.js`):
`ENUM('PENDING', 'SENT', 'FAILED', 'THROTTLED')`. -/
inductive Status where
  | PENDING
  | SENT
  | FAILED
  | THROTTLED
deriving DecidableEq

/-- One row of the `email_logs` table (`models.js`, `EmailLog`).  Times are
epoch milliseconds. -/
structure EmailRecord where
  id : String
  recipient : String
  subject : String
  body : String
  senderId : String
  scheduledAt : Int
  status : Status
  delayBetweenEmails : Int
  hourlyLimit : Int
deriving DecidableEq

/-- The payload of a queued job (`job.data` in `server.js` / `worker.js`).
`delayBetweenEmails` is an `Option` because the worker destructures it with a
default (`delayBetweenEmails = MIN_DELAY_BETWEEN_EMAILS`) when absent. -/
structure JobData where
  emailLogId : String
  recipient : String
  subject : String
  body : String
  senderId : String
  delayBetweenEmails : Option Int
  hourlyLimit : Int
deriving DecidableEq

/-- A job held by the BullMQ queue: its id, payload and enqueue delay (ms). -/
structure QueuedJob where
  jobId : String
  data : JobData
  delay : Int
deriving DecidableEq

/-- The mutable state the scheduler touches: the `EmailLog` table, the Redis
rate-limit counters and their expiries (seconds), and the queue contents. -/
structure SystemState where
  records : List EmailRecord
  rateCounts : List (String × Nat)
  rateExpiry : List (String × Nat)
  queue : List QueuedJob
deriving DecidableEq

/-- A JS `Date` broken into the fields the source reads (`getFullYear`,
`getMonth` — 0-based as in JS —, `getDate`, `getHours`, `getMinutes`,
`getSeconds`, `getMilliseconds`), plus `dayBaseMs`, the epoch value of the
local midnight of that day, so that `getTime` is definable. -/
structure DateTime where
  dayBaseMs : Int
  hours : Int
  minutes : Int
  seconds : Int
  ms : Int
  year : Int
  month : Int
  day : Int
deriving DecidableEq

/-- `Date.prototype.getTime` of the modelled `DateTime`. -/
def DateTime.getTime (d : DateTime) : Int :=
  d.dayBaseMs + ((d.hours * 60 + d.minutes) * 60 + d.seconds) * 1000 + d.ms

/-- `worker.js` line 7: `const MIN_DELAY_BETWEEN_EMAILS = 2;` (seconds). -/
def MIN_DELAY_BETWEEN_EMAILS : Int := 2

/-- `EmailLog.findByPk` over the modelled table: first row whose primary key
matches. -/
def findByPk (records : List EmailRecord) (id : String) : Option EmailRecord :=
  match records with
  | [] => none
  | r :: t => if r.id = id then some r else findByPk t id

/-- `EmailLog.update({status}, {where: {id}})` / `emailLog.update({status})`:
set the status of every row whose primary key matches (a no-op when the row is
absent). -/
def updateRecord (records : List EmailRecord) (id : String) (st : Status) :
    List EmailRecord :=
  match records with
  | [] => []
  | r :: t =>
      (if r.id = id then { r with status := st } else r) :: updateRecord t id st

/-- Status of the row with a given id, when present. -/
def recStatus (records : List EmailRecord) (id : String) : Option Status :=
  (findByPk records id).map EmailRecord.status

/-- Redis `GET key` on the counter store, with the worker's
`currentCount ? parseInt(currentCount) : 0` defaulting: an absent key reads
as 0. -/
def lookupCount (counts : List (String × Nat)) (key : String) : Nat :=
  match counts with
  | [] => 0
  | (k, v) :: t => if k = key then v else lookupCount t key

/-- Write-through on an association list: replace the entry for `key` when
present, append it otherwise. -/
def setEntry (l : List (String × Nat)) (key : String) (v : Nat) :
    List (String × Nat) :=
  match l with
  | [] => [(key, v)]
  | (k, w) :: t => if k = key then (key, v) :: t else (k, w) :: setEntry t key v

/-- `worker.js` lines 28–29: the hour-bucket string
`` `${now.getFullYear()}-${now.getMonth() + 1}-${now.getDate()}-${now.getHours()}` ``. -/
def currentHourBucket (now : DateTime) : String :=
  toString now.year ++ "-" ++ toString (now.month + 1) ++ "-" ++
    toString now.day ++ "-" ++ toString now.hours

/-- `worker.js` line 30: `` `rate-limit:${senderId}:${currentHour}` ``. -/
def rateKey (senderId : String) (now : DateTime) : String :=
  "rate-limit:" ++ senderId ++ ":" ++ currentHourBucket now

/-- The object `checkRateLimit`'s dead tail (`worker.js` lines 35–41) would
return. -/
structure RateCheck where
  allowed : Bool
  currentCount : Nat
  limit : Int
  rateLimitKey : String
  currentHour : String
deriving DecidableEq

/-- Successful return values of the worker's processor (`worker.js`).  The
`throttled` and `sent` shapes appear in the source (lines 144–148, 168–172)
but are never produced at runtime: both lie beyond the throwing rate check
(see `processJob`). -/
inductive Outcome where
  | already_sent (emailLogId : String)
  | throttled (emailLogId : String) (rescheduledDelay : Int)
  | sent (emailLogId : String) (recipient : String)
deriving DecidableEq

/-- Errors thrown out of the processor: the explicit plain
`throw new Error(...)` for a missing record (`worker.js` line 108), and the
`ReferenceError` raised when the module evaluates an identifier it never
binds (the constructor records that identifier's name). -/
inductive ProcessError where
  | recordNotFound (emailLogId : String)
  | referenceError (name : String)
deriving DecidableEq

deriving instance DecidableEq for Except

/-- Observable I/O actions of one processor run, in execution order:
invoking the SMTP transport, the blocking `setTimeout` pause (ms), the Redis
counter increment, and an `EmailLog` status write.  The vocabulary covers
everything the source's processor text could perform; which of these a run
actually emits is what the theorems state. -/
inductive Action where
  | send (recipient subject body : String)
  | sleep (ms : Int)
  | incr (key : String)
  | updateStatus (id : String) (st : Status)
deriving DecidableEq

/-- Result of one processor run: the returned value or thrown error, the
post-state, and the action trace. -/
structure ProcResult where
  result : Except ProcessError Outcome
  state : SystemState
  trace : List Action
deriving DecidableEq

/-- `worker.js` lines 27–42, `checkRateLimit(senderId, hourlyLimit)`: the
body's first await (line 32) reads `redisConnection.get(...)`, but
`redisConnection` is never bound in worker.js — the module names its own
Redis handle `connection` (line 10) and never imports queue.js's
`redisConnection` export — so in this ES module every invocation throws
`ReferenceError: redisConnection is not defined` before any read; the rest
of the body (lines 33–41) is dead code.  The parameters model the ambient
store and clock the body would consult. -/
def checkRateLimit (_counts : List (String × Nat)) (_now : DateTime)
    (_senderId : String) (_hourlyLimit : Int) : Except ProcessError RateCheck :=
  Except.error (ProcessError.referenceError "redisConnection")

/-- `worker.js` lines 45–51, `incrementRateLimit(rateLimitKey)`: the body's
first await (line 46) calls `redisConnection.incr(...)` on the same unbound
`redisConnection`, so every invocation throws a `ReferenceError`; the INCR,
the conditional `EXPIRE` (line 48) and the return never execute. -/
def incrementRateLimit (_counts _expiry : List (String × Nat))
    (_rateLimitKey : String) :
    Except ProcessError (Nat × List (String × Nat) × List (String × Nat)) :=
  Except.error (ProcessError.referenceError "redisConnection")

/-- Modelled from the spec (section 4.3 `CheckAndReserve`), matching the dead
body text of `checkRateLimit` (lines 28–41): read the count stored under the
sender's current local hour-bucket key; allowed iff it is strictly below the
hourly limit; a pure read.  This is what the claims expect `checkRateLimit`
to return; stated separately so theorems can exhibit the divergence. -/
def CheckAndReserveSpec (counts : List (String × Nat)) (now : DateTime)
    (senderId : String) (hourlyLimit : Int) : RateCheck :=
  let currentHour := currentHourBucket now
  let rateLimitKey := "rate-limit:" ++ senderId ++ ":" ++ currentHour
  let count := lookupCount counts rateLimitKey
  { allowed := decide ((count : Int) < hourlyLimit)
    currentCount := count
    limit := hourlyLimit
    rateLimitKey := rateLimitKey
    currentHour := currentHour }

/-- Modelled from the spec (section 4.3 `Increment`), matching the dead body
text of `incrementRateLimit` (lines 46–50): INCR the key and set its expiry
to 3600 seconds exactly when the incremented count is 1, returning the new
count and the updated stores.  This is what the claims expect
`incrementRateLimit` to do. -/
def IncrementSpec (counts expiry : List (String × Nat))
    (rateLimitKey : String) : Nat × List (String × Nat) × List (String × Nat) :=
  let count := lookupCount counts rateLimitKey + 1
  let counts' := setEntry counts rateLimitKey count
  let expiry' := if count = 1 then setEntry expiry rateLimitKey 3600 else expiry
  (count, counts', expiry')

/-- `worker.js` lines 54–62, `getDelayToNextHour()`: copy `now`, set its hours
to `hours + 1` and zero the minutes/seconds/milliseconds, and return the
difference of the two `getTime` values. -/
def getDelayToNextHour (now : DateTime) : Int :=
  let nextHour : DateTime :=
    { now with hours := now.hours + 1, minutes := 0, seconds := 0, ms := 0 }
  nextHour.getTime - now.getTime

/-- `worker.js` lines 85–188: the BullMQ worker's processor.  `now`/`nowMs`
model the wall clock at processing time and `sendOk` the outcome an SMTP
transport call would have; they are retained for the ambient context even
though no reachable path consults them.  The reachable control flow is:
destructure the payload (lines 87–98 — real but outcome-irrelevant, since
the clamped `actualDelay` is only consumed by unreachable code), load the
record; when missing, throw the explicit plain error (line 108), which the
catch-all (lines 174–186) answers with a best-effort FAILED write (a no-op,
the row is absent) before rethrowing; when the record is already SENT,
return `already_sent` (lines 111–114) — this path touches no unbound
identifier.  Every other found record reaches `await checkRateLimit(...)`
(line 117), which throws `ReferenceError: redisConnection is not defined`
(see `checkRateLimit`); the catch-all writes FAILED and rethrows.  The
throttle branch (lines 119–148, which also references the unbound
`emailQueue` at line 128), `sendEmail` (whose line 66 calls the undefined
`createTransporter`; the module defines `transporter`, line 16), the pacing
`setTimeout` (lines 154–157), the counter increment (line 160) and the SENT
write (line 164) are therefore all unreachable: no run emits a send, sleep
or incr action. -/
def processJob (s : SystemState) (_now : DateTime) (_nowMs : Int)
    (_sendOk : Bool) (job : QueuedJob) : ProcResult :=
  match findByPk s.records job.data.emailLogId with
  | none =>
      { result := Except.error (ProcessError.recordNotFound job.data.emailLogId)
        state := { s with
          records := updateRecord s.records job.data.emailLogId Status.FAILED }
        trace := [Action.updateStatus job.data.emailLogId Status.FAILED] }
  | some emailLog =>
      if emailLog.status = Status.SENT then
        { result := Except.ok (Outcome.already_sent job.data.emailLogId)
          state := s
          trace := [] }
      else
        { result := Except.error (ProcessError.referenceError "redisConnection")
          state := { s with
            records := updateRecord s.records job.data.emailLogId Status.FAILED }
          trace := [Action.updateStatus job.data.emailLogId Status.FAILED] }

/-- `queue.js` line 25: `defaultJobOptions.attempts`. -/
def defaultJobAttempts : Nat := 3

/-- `queue.js` line 28: `defaultJobOptions.backoff.delay` (ms). -/
def defaultBackoffBaseMs : Nat := 2000

/-- Modelled from the spec: the queue "automatically retries the same job up
to a fixed attempt budget (3) with exponential backoff" on a processing
error.  The retry decision of the queue engine (BullMQ, configured by
`queue.js`'s `defaultJobOptions`) is not part of this repository; the worker
throws plain `Error` values at every throw site, so no error kind carries a
mark that could exempt it from this uniform policy. -/
def queueRetriesAfterFailure (attemptsMade : Nat) : Bool :=
  decide (attemptsMade < defaultJobAttempts)

/-- Modelled from the spec: exponential backoff "base 2000ms, doubling per
attempt" as configured by `queue.js`'s `defaultJobOptions.backoff`. -/
def queueBackoffDelayMs (attemptsMade : Nat) : Nat :=
  defaultBackoffBaseMs * 2 ^ (attemptsMade - 1)

/-- Character class `[^\s@]` of the recipient regex in `server.js` line 171:
any character that is neither whitespace nor `@`. -/
def isEmailAtom (c : Char) : Bool :=
  !c.isWhitespace && c != '@'

/-- `server.js` line 171–172: `/^[^\s@]+@[^\s@]+\.[^\s@]+$/.test(recipient)`.
The anchored regex matches exactly when the string decomposes as
`A ++ "@" ++ B ++ "." ++ C` with `A`, `B`, `C` nonempty strings of
`[^\s@]` characters; `i` ranges over candidate positions of the `@` and `j`
over candidate positions of the `.`. -/
def emailRegexTest (s : String) : Bool :=
  let cs := s.toList
  (List.range cs.length).any fun i =>
    (List.range cs.length).any fun j =>
      decide (0 < i) && decide (i + 1 < j) && decide (j + 1 < cs.length) &&
      (cs.getD i ' ' == '@') && (cs.getD j ' ' == '.') &&
      (cs.take i).all isEmailAtom &&
      ((cs.drop (i + 1)).take (j - (i + 1))).all isEmailAtom &&
      (cs.drop (j + 1)).all isEmailAtom

/-- The 4xx rejections of the `POST /schedule` handler (`server.js`). -/
inductive SubmitError where
  | missingFields
  | invalidEmail
  | invalidDateFormat
  | pastSchedule
deriving DecidableEq

/-- The identifiers the 201 response of `POST /schedule` reports. -/
structure CreatedInfo where
  emailLogId : String
  jobId : String
  delay : Int
deriving DecidableEq

/-- Result of one `POST /schedule` call: the HTTP-level outcome plus the
post-state of the record table and the queue. -/
structure ScheduleOutcome where
  response : Except SubmitError CreatedInfo
  records : List EmailRecord
  queue : List QueuedJob
deriving DecidableEq

/-- JS truthiness of an optional string field (`!recipient` is true for a
missing field and for the empty string). -/
def truthy (o : Option String) : Bool :=
  match o with
  | some s => s != ""
  | none => false

/-- JS `v || dflt` on an optional integer field: absent and `0` are falsy and
yield the default, every other integer is truthy and kept. -/
def jsOr (v : Option Int) (dflt : Int) : Int :=
  match v with
  | some n => if n = 0 then dflt else n
  | none => dflt

/-- Body of a `POST /schedule` request.  `scheduledAt` is the parse result of
the submitted value: `none` when the field is absent (or falsy), `some none`
when present but unparsable (`new Date(...)` is `NaN`), `some (some t)` when
it parses to epoch milliseconds `t`. -/
structure SubmitRequest where
  recipient : Option String
  subject : Option String
  body : Option String
  scheduledAt : Option (Option Int)
  delayBetweenEmails : Option Int
  hourlyLimit : Option Int
deriving DecidableEq

/-- `server.js` lines 209–218: the `EmailLog.create` call — a PENDING row
with `delayBetweenEmails: delayBetweenEmails || 0` and
`hourlyLimit: hourlyLimit || 10`; `newId` is the fresh UUID Sequelize
assigns. -/
def scheduledRecord (req : SubmitRequest) (senderId newId : String)
    (scheduledTime : Int) : EmailRecord :=
  { id := newId
    recipient := req.recipient.getD ""
    subject := req.subject.getD ""
    body := req.body.getD ""
    senderId := senderId
    scheduledAt := scheduledTime
    status := Status.PENDING
    delayBetweenEmails := jsOr req.delayBetweenEmails 0
    hourlyLimit := jsOr req.hourlyLimit 10 }

/-- `server.js` lines 221–236: the `emailQueue.add` call — job id equal to
the created row's id, payload copied from the row, the computed delay. -/
def jobForRecord (r : EmailRecord) (delay : Int) : QueuedJob :=
  { jobId := r.id
    data := { emailLogId := r.id
              recipient := r.recipient
              subject := r.subject
              body := r.body
              senderId := r.senderId
              delayBetweenEmails := some r.delayBetweenEmails
              hourlyLimit := r.hourlyLimit }
    delay := delay }

/-- `server.js` lines 208–254: the success tail of the handler — create the
`EmailLog` row, enqueue the job, answer 201 with the identifiers and delay. -/
def scheduleSuccess (req : SubmitRequest) (senderId newId : String)
    (records : List EmailRecord) (queue : List QueuedJob)
    (scheduledTime delay : Int) : ScheduleOutcome :=
  let emailLog := scheduledRecord req senderId newId scheduledTime
  { response := Except.ok { emailLogId := newId, jobId := newId, delay := delay }
    records := records ++ [emailLog]
    queue := queue ++ [jobForRecord emailLog delay] }

/-- `server.js` lines 157–254, the `POST /schedule` handler: reject missing
required fields, reject a recipient the email regex refuses, then handle
`scheduledAt` — absent means delay 0 and `scheduledTime = now`; present but
unparsable is a 400; a parsed time gives `delay = scheduledTime - now`,
rejected when negative.  `newId` stands for the fresh UUID Sequelize assigns
to the created row. -/
def handleSchedule (req : SubmitRequest) (senderId : String) (nowMs : Int)
    (newId : String) (records : List EmailRecord) (queue : List QueuedJob) :
    ScheduleOutcome :=
  if !truthy req.recipient || !truthy req.subject || !truthy req.body then
    { response := Except.error SubmitError.missingFields
      records := records, queue := queue }
  else if !emailRegexTest (req.recipient.getD "") then
    { response := Except.error SubmitError.invalidEmail
      records := records, queue := queue }
  else
    match req.scheduledAt with
    | some none =>
        { response := Except.error SubmitError.invalidDateFormat
          records := records, queue := queue }
    | some (some t) =>
        if t - nowMs < 0 then
          { response := Except.error SubmitError.pastSchedule
            records := records, queue := queue }
        else
          scheduleSuccess req senderId newId records queue t (t - nowMs)
    | none => scheduleSuccess req senderId newId records queue nowMs 0

/-- HTTP-level outcome of `DELETE /emails/:id`: a 404, or the fixed 200 body
`{success: true, message: 'Email deleted successfully'}` — the body carries
no other data. -/
inductive CancelResponse where
  | notFound
  | deleted
deriving DecidableEq

/-- `server.js` lines 330–371, the `DELETE /emails/:id` handler: look the
record up scoped to the caller (`where: {id, senderId}`); absent → 404 and
nothing removed.  Otherwise best-effort remove the queued job with
`jobId = id` when present (its absence is swallowed), destroy the record,
and answer the fixed success body. -/
def handleDelete (records : List EmailRecord) (queue : List QueuedJob)
    (id senderId : String) :
    CancelResponse × List EmailRecord × List QueuedJob :=
  match records.find? (fun r => r.id == id && r.senderId == senderId) with
  | none => (CancelResponse.notFound, records, queue)
  | some _ =>
      let queue' := queue.filter (fun j => !(j.jobId == id))
      let records' := records.filter (fun r => !(r.id == id))
      (CancelResponse.deleted, records', queue')

/-! ### Helper lemmas about the store operations -/

theorem findByPk_updateRecord (l : List EmailRecord) (id : String) (st : Status) :
    findByPk (updateRecord l id st) id =
      (findByPk l id).map (fun r => { r with status := st }) := by
  induction l with
  | nil => rfl
  | cons a t ih =>
      by_cases h : a.id = id
      · simp [updateRecord, findByPk, h]
      · simpa [updateRecord, findByPk, h] using ih

theorem updateRecord_of_not_found (l : List EmailRecord) (id : String)
    (st : Status) (h : findByPk l id = none) : updateRecord l id st = l := by
  induction l with
  | nil => rfl
  | cons a t ih =>
      by_cases ha : a.id = id
      · simp [findByPk, ha] at h
      · rw [findByPk, if_neg ha] at h
        simp [updateRecord, ha, ih h]

theorem recStatus_updateRecord (l : List EmailRecord) (id : String) (st : Status) :
    recStatus (updateRecord l id st) id = (recStatus l id).map (fun _ => st) := by
  rw [recStatus, recStatus, findByPk_updateRecord]
  cases findByPk l id <;> rfl

theorem lookupCount_setEntry (l : List (String × Nat)) (key : String) (v : Nat) :
    lookupCount (setEntry l key v) key = v := by
  induction l with
  | nil => simp [setEntry, lookupCount]
  | cons a t ih =>
      obtain ⟨k, w⟩ := a
      by_cases h : k = key
      · simp [setEntry, lookupCount, h]
      · simpa [setEntry, lookupCount, h] using ih

/-! ### Concrete fixtures used by witnesses and counterexamples -/

/-- A concrete wall clock: 2024-01-02, 03:04:05.006 local time. -/
def cNow : DateTime :=
  { dayBaseMs := 0, hours := 3, minutes := 4, seconds := 5, ms := 6
    year := 2024, month := 0, day := 2 }

def cRecSent : EmailRecord :=
  { id := "e1", recipient := "a@b.c", subject := "S", body := "B"
    senderId := "s1", scheduledAt := 0, status := Status.SENT
    delayBetweenEmails := 0, hourlyLimit := 10 }

def cRecFailed : EmailRecord := { cRecSent with status := Status.FAILED }

def cRecPending : EmailRecord := { cRecSent with status := Status.PENDING }

def cJobE1 : QueuedJob :=
  { jobId := "e1"
    data := { emailLogId := "e1", recipient := "a@b.c", subject := "S"
              body := "B", senderId := "s1", delayBetweenEmails := some 0
              hourlyLimit := 10 }
    delay := 0 }

def cStateSent : SystemState :=
  { records := [cRecSent], rateCounts := [], rateExpiry := [], queue := [] }

def cStateFailed : SystemState :=
  { records := [cRecFailed], rateCounts := [], rateExpiry := [], queue := [] }

def cStateEmpty : SystemState :=
  { records := [], rateCounts := [], rateExpiry := [], queue := [] }

/-- State whose hour bucket for sender `s1` is already at the job's limit. -/
def cStateAtLimit : SystemState :=
  { records := [{ cRecPending with hourlyLimit := 1 }]
    rateCounts := [("rate-limit:s1:2024-1-2-3", 1)]
    rateExpiry := [], queue := [] }

def cJobLimit1 : QueuedJob :=
  { cJobE1 with data := { cJobE1.data with hourlyLimit := 1 } }

/-! ### Fixtures for the server-side claims -/

def cStatePending : SystemState :=
  { records := [cRecPending], rateCounts := [], rateExpiry := [], queue := [] }

/-- A fully valid request with no `scheduledAt`. -/
def creqNoSched : SubmitRequest :=
  { recipient := some "a@b.c", subject := some "S", body := some "B"
    scheduledAt := none, delayBetweenEmails := some 0, hourlyLimit := some 0 }

def creqPast : SubmitRequest := { creqNoSched with scheduledAt := some (some 50) }

def creqUnparsable : SubmitRequest := { creqNoSched with scheduledAt := some none }

def creqNegLimit : SubmitRequest := { creqNoSched with hourlyLimit := some (-1) }

def creqBadEmail : SubmitRequest := { creqNoSched with recipient := some "a@b" }


/-! ### Claim theorems -/

/-- C1: for every job whose referenced record already has status SENT, the
worker's processor returns `already_sent` without invoking the transport,
without incrementing the rate counter and without changing any state (the
empty action trace and the unchanged `SystemState` witness all three), and a
repeated invocation on the resulting state returns the same. -/
theorem c1_already_sent_is_noop_and_idempotent
    (s : SystemState) (now : DateTime) (nowMs : Int) (sendOk : Bool)
    (job : QueuedJob) (r : EmailRecord)
    (hfind : findByPk s.records job.data.emailLogId = some r)
    (hsent : r.status = Status.SENT) :
    processJob s now nowMs sendOk job =
      { result := Except.ok (Outcome.already_sent job.data.emailLogId)
        state := s
        trace := [] } ∧
    processJob (processJob s now nowMs sendOk job).state now nowMs sendOk job =
      processJob s now nowMs sendOk job := by
  have h1 : processJob s now nowMs sendOk job =
      { result := Except.ok (Outcome.already_sent job.data.emailLogId)
        state := s
        trace := [] } := by
    simp only [processJob]
    rw [hfind]
    simp [hsent]
  exact ⟨h1, by rw [h1]; exact h1⟩

/-- C1 witness: a concrete SENT record is skipped, twice. -/
theorem c1_witness :
    processJob cStateSent cNow 0 true cJobE1 =
      { result := Except.ok (Outcome.already_sent "e1")
        state := cStateSent
        trace := [] } ∧
    processJob (processJob cStateSent cNow 0 true cJobE1).state cNow 0 true cJobE1 =
      processJob cStateSent cNow 0 true cJobE1 :=
  c1_already_sent_is_noop_and_idempotent cStateSent cNow 0 true cJobE1 cRecSent
    (by decide) rfl

/-- C5: the claim describes the rate check as reading the (sender, current
local year-month-day-hour bucket) count, answering allowed iff it is
strictly below the limit without incrementing, and the increment operation
as adding 1 with a 3600-second expiry exactly on the count's first step —
which is what the dead body text (and `CheckAndReserveSpec` /
`IncrementSpec`) compute; but the code is broken: both source functions
dereference the unbound `redisConnection` and throw a ReferenceError on
every invocation, never returning the check result and never performing the
INCR/EXPIRE. -/
theorem c5_rate_limit_functions_throw
    (counts expiry : List (String × Nat)) (now : DateTime)
    (senderId key : String) (hourlyLimit : Int) :
    checkRateLimit counts now senderId hourlyLimit
        = Except.error (ProcessError.referenceError "redisConnection") ∧
    incrementRateLimit counts expiry key
        = Except.error (ProcessError.referenceError "redisConnection") ∧
    (CheckAndReserveSpec counts now senderId hourlyLimit).allowed
        = decide ((lookupCount counts (rateKey senderId now) : Int) < hourlyLimit) ∧
    (CheckAndReserveSpec counts now senderId hourlyLimit).currentCount
        = lookupCount counts (rateKey senderId now) ∧
    (CheckAndReserveSpec counts now senderId hourlyLimit).limit = hourlyLimit ∧
    (CheckAndReserveSpec counts now senderId hourlyLimit).rateLimitKey
        = rateKey senderId now ∧
    (IncrementSpec counts expiry key).1 = lookupCount counts key + 1 ∧
    lookupCount (IncrementSpec counts expiry key).2.1 key
        = lookupCount counts key + 1 ∧
    (IncrementSpec counts expiry key).2.2
        = (if lookupCount counts key + 1 = 1
           then setEntry expiry key 3600 else expiry) := by
  refine ⟨rfl, rfl, rfl, rfl, rfl, rfl, rfl, ?_, rfl⟩
  simp [IncrementSpec, lookupCount_setEntry]

/-- C2: the claim describes the throttle branch (THROTTLED write, one
`-retry-<timestamp>` job re-enqueued with the payload and a delay to the
next hour boundary, outcome `throttled`), which is the evident intent of
`worker.js` lines 119–148; but that branch is unreachable: on a job the
claim would throttle (record PENDING with `hourlyLimit` 1 and the sender's
hour bucket already at 1), `await checkRateLimit(...)` (line 117) throws a
ReferenceError on the unbound `redisConnection` before any rate decision,
the catch-all marks the record FAILED, nothing is enqueued and no
`throttled` outcome is produced.  This theorem evaluates the processor at
exactly that failing input. -/
theorem c2_throttle_branch_unreachable :
    processJob cStateAtLimit cNow 77 true cJobLimit1 =
      { result := Except.error (ProcessError.referenceError "redisConnection")
        state := { records := [{ cRecPending with hourlyLimit := 1, status := Status.FAILED }]
                   rateCounts := [("rate-limit:s1:2024-1-2-3", 1)]
                   rateExpiry := [], queue := [] }
        trace := [Action.updateStatus "e1" Status.FAILED] } := by
  decide

/-- C3 counterexample: processing a job whose record is absent throws the
record-not-found error through the very same catch-all/throw path every other
processing error takes; under the queue's uniform retry policy
(`defaultJobOptions`: 3 attempts, exponential backoff from 2000 ms) the
failed first attempt IS retried (with the same 2000 ms backoff a transport
failure would get), contradicting the claim that such a job is not retried. -/
theorem c3_counterexample :
    (processJob cStateEmpty cNow 0 true cJobE1).result
        = Except.error (ProcessError.recordNotFound "e1") ∧
    queueRetriesAfterFailure 1 = true ∧
    queueRetriesAfterFailure 2 = true ∧
    queueRetriesAfterFailure 3 = false ∧
    queueBackoffDelayMs 1 = 2000 := by
  decide

/-- C3 (amended): a job whose record is absent makes the processor throw
`recordNotFound`; the catch-all's FAILED write is a no-op (the row is
absent), so the state is unchanged; the thrown error is a plain error
indistinguishable to the queue from any other processing error, so the
queue's uniform retry/backoff policy (up to 3 attempts, exponential backoff
from 2000 ms) applies to it as to any other failure. -/
theorem c3_missing_record_fails_like_any_error
    (s : SystemState) (now : DateTime) (nowMs : Int) (sendOk : Bool)
    (job : QueuedJob)
    (hfind : findByPk s.records job.data.emailLogId = none) :
    (processJob s now nowMs sendOk job).result
        = Except.error (ProcessError.recordNotFound job.data.emailLogId) ∧
    (processJob s now nowMs sendOk job).state = s ∧
    (processJob s now nowMs sendOk job).trace
        = [Action.updateStatus job.data.emailLogId Status.FAILED] ∧
    queueRetriesAfterFailure 1 = true ∧
    queueRetriesAfterFailure 2 = true ∧
    queueRetriesAfterFailure 3 = false := by
  have hup := updateRecord_of_not_found s.records job.data.emailLogId
    Status.FAILED hfind
  refine ⟨?_, ?_, ?_, by decide, by decide, by decide⟩
  · simp only [processJob]
    rw [hfind]
  · simp only [processJob]
    rw [hfind]
    simp [hup]
  · simp only [processJob]
    rw [hfind]

/-- C3 witness: concrete missing record. -/
theorem c3_witness :
    (processJob cStateEmpty cNow 0 true cJobE1).result
        = Except.error (ProcessError.recordNotFound "e1") ∧
    (processJob cStateEmpty cNow 0 true cJobE1).state = cStateEmpty ∧
    (processJob cStateEmpty cNow 0 true cJobE1).trace
        = [Action.updateStatus "e1" Status.FAILED] ∧
    queueRetriesAfterFailure 1 = true ∧
    queueRetriesAfterFailure 2 = true ∧
    queueRetriesAfterFailure 3 = false :=
  c3_missing_record_fails_like_any_error cStateEmpty cNow 0 true cJobE1 rfl

/-- C4: starting from any record status, the only status changes the
processor ever performs are PENDING → FAILED and THROTTLED → FAILED — both
inside the claimed relation (PENDING→{SENT, FAILED, THROTTLED},
THROTTLED→{SENT, FAILED, THROTTLED}) — and no path moves a record out of
SENT: a SENT record short-circuits with the whole state unchanged.  (A
found FAILED record is rewritten FAILED, i.e. its status does not change;
the SENT and THROTTLED targets of the claimed relation simply never occur
because the rate check throws before them.) -/
theorem c4_status_transitions
    (s : SystemState) (now : DateTime) (nowMs : Int) (sendOk : Bool)
    (job : QueuedJob) :
    (recStatus s.records job.data.emailLogId = some Status.SENT →
      (processJob s now nowMs sendOk job).state = s) ∧
    (recStatus (processJob s now nowMs sendOk job).state.records
        job.data.emailLogId = recStatus s.records job.data.emailLogId ∨
      (recStatus s.records job.data.emailLogId
          ∈ [some Status.PENDING, some Status.THROTTLED] ∧
        recStatus (processJob s now nowMs sendOk job).state.records
          job.data.emailLogId = some Status.FAILED)) := by
  cases hfind : findByPk s.records job.data.emailLogId with
  | none =>
      constructor
      · intro hsent
        simp only [recStatus, hfind] at hsent
        simp at hsent
      · left
        simp only [processJob]
        rw [hfind]
        simp only [recStatus, findByPk_updateRecord, hfind]
        rfl
  | some r =>
      have key : recStatus (updateRecord s.records job.data.emailLogId
          Status.FAILED) job.data.emailLogId = some Status.FAILED := by
        rw [recStatus_updateRecord]
        simp [recStatus, hfind]
      by_cases hsent : r.status = Status.SENT
      · have h1 : processJob s now nowMs sendOk job =
            { result := Except.ok (Outcome.already_sent job.data.emailLogId)
              state := s, trace := [] } := by
          simp only [processJob]
          rw [hfind]
          simp [hsent]
        exact ⟨fun _ => by rw [h1], Or.inl (by rw [h1])⟩
      · have h2 : processJob s now nowMs sendOk job =
            { result := Except.error (ProcessError.referenceError "redisConnection")
              state := { s with records := updateRecord s.records job.data.emailLogId Status.FAILED }
              trace := [Action.updateStatus job.data.emailLogId Status.FAILED] } := by
          simp only [processJob]
          rw [hfind]
          simp [hsent]
        have hpost : (processJob s now nowMs sendOk job).state.records
            = updateRecord s.records job.data.emailLogId Status.FAILED := by
          rw [h2]
        constructor
        · intro hs
          simp only [recStatus, hfind] at hs
          simp at hs
          exact absurd hs hsent
        · rw [hpost, key]
          cases hr : r.status with
          | PENDING =>
              right
              simp [recStatus, hfind, hr]
          | THROTTLED =>
              right
              simp [recStatus, hfind, hr]
          | FAILED =>
              left
              simp [recStatus, hfind, hr]
          | SENT => exact absurd hr hsent

/-- C4 witness: a SENT record is left untouched; a PENDING record's run
lands in the claimed transition relation (PENDING → FAILED); a FAILED
record's status does not change. -/
theorem c4_witness :
    (processJob cStateSent cNow 0 true cJobE1).state = cStateSent ∧
    (recStatus (processJob cStatePending cNow 0 true cJobE1).state.records "e1"
        = recStatus cStatePending.records "e1" ∨
      (recStatus cStatePending.records "e1"
          ∈ [some Status.PENDING, some Status.THROTTLED] ∧
        recStatus (processJob cStatePending cNow 0 true cJobE1).state.records "e1"
          = some Status.FAILED)) ∧
    (recStatus (processJob cStateFailed cNow 0 true cJobE1).state.records "e1"
        = recStatus cStateFailed.records "e1" ∨
      (recStatus cStateFailed.records "e1"
          ∈ [some Status.PENDING, some Status.THROTTLED] ∧
        recStatus (processJob cStateFailed cNow 0 true cJobE1).state.records "e1"
          = some Status.FAILED)) :=
  ⟨(c4_status_transitions cStateSent cNow 0 true cJobE1).1 (by decide),
   (c4_status_transitions cStatePending cNow 0 true cJobE1).2,
   (c4_status_transitions cStateFailed cNow 0 true cJobE1).2⟩

/-- C8: the claim describes the post-send pacing — a blocking pause of
`max(delayBetweenSends, 2)` seconds between a successful send and the
counter increment / SENT write (`worker.js` lines 154–157, with the
destructuring default and `Math.max` clamp of lines 93–98); but no job is
ever processed to a successful send: on a job that should send (PENDING
record, fresh hour bucket), `await checkRateLimit(...)` (line 117) throws a
ReferenceError on the unbound `redisConnection` before the send — and
`sendEmail` itself would throw on the undefined `createTransporter` (line
66; the module defines `transporter`, line 16) — so the record is marked
FAILED and the trace contains no send, no sleep and no increment.  This
theorem evaluates the processor at exactly that failing input. -/
theorem c8_pacing_path_dead :
    processJob cStatePending cNow 0 true cJobE1 =
      { result := Except.error (ProcessError.referenceError "redisConnection")
        state := { records := [cRecFailed]
                   rateCounts := [], rateExpiry := [], queue := [] }
        trace := [Action.updateStatus "e1" Status.FAILED] } := by
  decide

/-- C6: a submission whose `scheduledAt` parses strictly into the past is
rejected (with some validation error — the past-schedule one when the other
validations pass) with no record and no job created; an unparsable
`scheduledAt` likewise; and a valid submission without `scheduledAt` computes
delay 0 and creates exactly one PENDING record plus one job whose `jobId`
equals the record's id. -/
theorem c6_schedule_time_validation
    (req : SubmitRequest) (senderId : String) (nowMs : Int) (newId : String)
    (records : List EmailRecord) (queue : List QueuedJob) (t : Int) :
    (req.scheduledAt = some (some t) → t < nowMs →
      ∃ e : SubmitError, handleSchedule req senderId nowMs newId records queue
          = { response := Except.error e, records := records, queue := queue }) ∧
    (req.scheduledAt = some none →
      ∃ e : SubmitError, handleSchedule req senderId nowMs newId records queue
          = { response := Except.error e, records := records, queue := queue }) ∧
    (req.scheduledAt = none → truthy req.recipient = true →
      truthy req.subject = true → truthy req.body = true →
      emailRegexTest (req.recipient.getD "") = true →
      handleSchedule req senderId nowMs newId records queue =
        { response := Except.ok { emailLogId := newId, jobId := newId, delay := 0 }
          records := records ++ [scheduledRecord req senderId newId nowMs]
          queue := queue ++ [jobForRecord (scheduledRecord req senderId newId nowMs) 0] } ∧
      (scheduledRecord req senderId newId nowMs).status = Status.PENDING ∧
      (scheduledRecord req senderId newId nowMs).id = newId ∧
      (jobForRecord (scheduledRecord req senderId newId nowMs) 0).jobId = newId ∧
      (jobForRecord (scheduledRecord req senderId newId nowMs) 0).delay = 0) := by
  refine ⟨?_, ?_, ?_⟩
  · intro hsched hpast
    simp only [handleSchedule]
    cases hb1 : (!truthy req.recipient || !truthy req.subject || !truthy req.body) with
    | true => exact ⟨SubmitError.missingFields, by simp [hb1]⟩
    | false =>
        cases hb2 : (!emailRegexTest (req.recipient.getD "")) with
        | true => exact ⟨SubmitError.invalidEmail, by simp [hb1, hb2]⟩
        | false =>
            refine ⟨SubmitError.pastSchedule, ?_⟩
            simp only [hb1, hb2, Bool.false_eq_true, if_false, hsched]
            rw [if_pos (by omega : t - nowMs < 0)]
  · intro hsched
    simp only [handleSchedule]
    cases hb1 : (!truthy req.recipient || !truthy req.subject || !truthy req.body) with
    | true => exact ⟨SubmitError.missingFields, by simp [hb1]⟩
    | false =>
        cases hb2 : (!emailRegexTest (req.recipient.getD "")) with
        | true => exact ⟨SubmitError.invalidEmail, by simp [hb1, hb2]⟩
        | false =>
            refine ⟨SubmitError.invalidDateFormat, ?_⟩
            simp [hb1, hb2, hsched]
  · intro hsched hr hs hb he
    have hb1 : (!truthy req.recipient || !truthy req.subject || !truthy req.body)
        = false := by simp [hr, hs, hb]
    have hb2 : (!emailRegexTest (req.recipient.getD "")) = false := by simp [he]
    refine ⟨?_, rfl, rfl, rfl, rfl⟩
    simp only [handleSchedule, hb1, hb2, Bool.false_eq_true, if_false, hsched]
    rfl

/-- C6 witness: a past schedule is rejected with nothing created; an
unparsable one likewise; the no-`scheduledAt` request creates the PENDING
record and the job with matching ids and delay 0. -/
theorem c6_witness :
    (∃ e : SubmitError, handleSchedule creqPast "s1" 100 "id1" [] []
        = { response := Except.error e, records := [], queue := [] }) ∧
    (∃ e : SubmitError, handleSchedule creqUnparsable "s1" 100 "id1" [] []
        = { response := Except.error e, records := [], queue := [] }) ∧
    (handleSchedule creqNoSched "s1" 100 "id1" [] [] =
        { response := Except.ok { emailLogId := "id1", jobId := "id1", delay := 0 }
          records := [] ++ [scheduledRecord creqNoSched "s1" "id1" 100]
          queue := [] ++ [jobForRecord (scheduledRecord creqNoSched "s1" "id1" 100) 0] } ∧
      (scheduledRecord creqNoSched "s1" "id1" 100).status = Status.PENDING ∧
      (scheduledRecord creqNoSched "s1" "id1" 100).id = "id1" ∧
      (jobForRecord (scheduledRecord creqNoSched "s1" "id1" 100) 0).jobId = "id1" ∧
      (jobForRecord (scheduledRecord creqNoSched "s1" "id1" 100) 0).delay = 0) := by
  refine ⟨?_, ?_, ?_⟩
  · exact (c6_schedule_time_validation creqPast "s1" 100 "id1" [] [] 50).1
      rfl (by norm_num)
  · exact (c6_schedule_time_validation creqUnparsable "s1" 100 "id1" [] [] 50).2.1
      rfl
  · exact (c6_schedule_time_validation creqNoSched "s1" 100 "id1" [] [] 50).2.2
      rfl rfl rfl rfl (by decide)

/-- C7 counterexample: the claim says Cancel returns to the caller whether
the job was found and removed; but the handler's 200 response is the fixed
success body, identical whether the queue held the job (first run: it did,
and was removed) or not (second run: queue empty), so the response carries no
such information. -/
theorem c7_counterexample :
    (handleDelete [cRecSent] [cJobE1] "e1" "s1").1
        = (handleDelete [cRecSent] [] "e1" "s1").1 ∧
    (handleDelete [cRecSent] [cJobE1] "e1" "s1").2.2 = [] ∧
    (handleDelete [cRecSent] [] "e1" "s1").2.2 = [] := by
  decide

/-- C7 (amended): if no record matches the id scoped to the caller, Cancel
answers NotFound and removes nothing; otherwise it removes the queued job
with that id when present (absence is not an error), deletes the record, and
answers a fixed success body that does not report whether a job was
removed. -/
theorem c7_cancel_behaviour
    (records : List EmailRecord) (queue : List QueuedJob) (id senderId : String)
    (r : EmailRecord) :
    (records.find? (fun x => x.id == id && x.senderId == senderId) = none →
      handleDelete records queue id senderId
        = (CancelResponse.notFound, records, queue)) ∧
    (records.find? (fun x => x.id == id && x.senderId == senderId) = some r →
      handleDelete records queue id senderId =
        (CancelResponse.deleted,
          records.filter (fun x => !(x.id == id)),
          queue.filter (fun j => !(j.jobId == id)))) := by
  constructor
  · intro h
    simp only [handleDelete, h]
  · intro h
    simp only [handleDelete, h]

/-- C7 witness: a missing record yields NotFound with nothing removed; a
present record is deleted together with its queued job. -/
theorem c7_witness :
    handleDelete [] [cJobE1] "e1" "s1" = (CancelResponse.notFound, [], [cJobE1]) ∧
    handleDelete [cRecSent] [cJobE1] "e1" "s1" =
      (CancelResponse.deleted,
        List.filter (fun x => !(x.id == "e1")) [cRecSent],
        List.filter (fun j => !(j.jobId == "e1")) [cJobE1]) := by
  constructor
  · exact (c7_cancel_behaviour [] [cJobE1] "e1" "s1" cRecSent).1 rfl
  · exact (c7_cancel_behaviour [cRecSent] [cJobE1] "e1" "s1" cRecSent).2 (by decide)

/-- C9 counterexample: the claim says the effective per-sender limit used
by the worker is always at least 1; but (i) the worker enforces no limit at
all — on a freshly created record with stored limit 10 and a fresh hour
bucket (zero prior sends) the processor throws the ReferenceError and marks
the record FAILED without sending, so not even one send per hour goes
through, an effective limit of 0 — and (ii) a negative submitted
`hourlyLimit` is truthy, passes `hourlyLimit || 10` unchanged and is stored
as −1. -/
theorem c9_counterexample :
    (handleSchedule creqNoSched "s1" 100 "id1" [] []).records.map
        (fun r => r.hourlyLimit) = [10] ∧
    processJob
        { records := [scheduledRecord creqNoSched "s1" "id1" 100]
          rateCounts := [], rateExpiry := [], queue := [] }
        cNow 0 true (jobForRecord (scheduledRecord creqNoSched "s1" "id1" 100) 0)
      = { result := Except.error (ProcessError.referenceError "redisConnection")
          state := { records := [{ scheduledRecord creqNoSched "s1" "id1" 100 with status := Status.FAILED }]
                     rateCounts := [], rateExpiry := [], queue := [] }
          trace := [Action.updateStatus "id1" Status.FAILED] } ∧
    (handleSchedule creqNegLimit "s1" 100 "id1" [] []).records.map
        (fun r => r.hourlyLimit) = [-1] := by
  decide

/-- C9 (amended): a falsy `hourlyLimit` (absent or explicit 0) is stored as
the default 10 and a falsy `delayBetweenSends` as 0, so the stored hourly
limit is never 0, and a nonnegative submitted value always yields a stored
limit of at least 1 — under the spec's rate check such a limit would allow
a fresh hour bucket; but the worker applies no effective limit at all: its
rate check throws on the unbound `redisConnection` before reading any
stored limit (and a negative submitted value is stored unchanged). -/
theorem c9_falsy_defaults
    (req : SubmitRequest) (senderId : String) (nowMs : Int) (newId : String)
    (records : List EmailRecord) (queue : List QueuedJob)
    (n : Int) (now : DateTime)
    (hsched : req.scheduledAt = none) (hr : truthy req.recipient = true)
    (hs : truthy req.subject = true) (hb : truthy req.body = true)
    (he : emailRegexTest (req.recipient.getD "") = true) (hn : 0 ≤ n) :
    (handleSchedule req senderId nowMs newId records queue).records
        = records ++ [scheduledRecord req senderId newId nowMs] ∧
    (scheduledRecord req senderId newId nowMs).hourlyLimit
        = jsOr req.hourlyLimit 10 ∧
    (scheduledRecord req senderId newId nowMs).delayBetweenEmails
        = jsOr req.delayBetweenEmails 0 ∧
    jsOr req.hourlyLimit 10 ≠ 0 ∧
    jsOr (some 0) 10 = 10 ∧ jsOr none 10 = 10 ∧
    jsOr (some 0) 0 = 0 ∧ jsOr none 0 = 0 ∧
    1 ≤ jsOr (some n) 10 ∧
    (CheckAndReserveSpec [] now senderId (jsOr (some n) 10)).allowed = true ∧
    checkRateLimit [] now senderId (jsOr (some n) 10)
        = Except.error (ProcessError.referenceError "redisConnection") := by
  have hb1 : (!truthy req.recipient || !truthy req.subject || !truthy req.body)
      = false := by simp [hr, hs, hb]
  have hb2 : (!emailRegexTest (req.recipient.getD "")) = false := by simp [he]
  have hlim1 : 1 ≤ jsOr (some n) 10 := by
    by_cases h0 : n = 0
    · simp [jsOr, h0]
    · simp only [jsOr, if_neg h0]
      omega
  refine ⟨?_, rfl, rfl, ?_, rfl, rfl, rfl, rfl, hlim1, ?_, rfl⟩
  · simp only [handleSchedule, hb1, hb2, Bool.false_eq_true, if_false, hsched]
    rfl
  · cases hl : req.hourlyLimit with
    | none => simp [jsOr]
    | some m =>
        by_cases h0 : m = 0
        · simp [jsOr, h0]
        · simp [jsOr, h0]
  · simp only [CheckAndReserveSpec, lookupCount]
    simp only [decide_eq_true_eq]
    push_cast
    omega

/-- C9 witness: an explicit `hourlyLimit = 0` and `delayBetweenSends = 0`
submission stores limit 10 and delay 0; a positive submission keeps its
value, which the spec's check would allow on a fresh bucket, while the
actual worker check throws. -/
theorem c9_witness :
    (handleSchedule creqNoSched "s1" 100 "id1" [] []).records
        = [] ++ [scheduledRecord creqNoSched "s1" "id1" 100] ∧
    (scheduledRecord creqNoSched "s1" "id1" 100).hourlyLimit
        = jsOr (some 0) 10 ∧
    (scheduledRecord creqNoSched "s1" "id1" 100).delayBetweenEmails
        = jsOr (some 0) 0 ∧
    jsOr (some (0 : Int)) 10 ≠ 0 ∧
    jsOr (some 0) 10 = 10 ∧ jsOr none 10 = 10 ∧
    jsOr (some 0) 0 = 0 ∧ jsOr none 0 = 0 ∧
    1 ≤ jsOr (some (3 : Int)) 10 ∧
    (CheckAndReserveSpec [] cNow "s1" (jsOr (some 3) 10)).allowed = true ∧
    checkRateLimit [] cNow "s1" (jsOr (some 3) 10)
        = Except.error (ProcessError.referenceError "redisConnection") :=
  c9_falsy_defaults creqNoSched "s1" 100 "id1" [] [] 3 cNow rfl rfl rfl rfl
    (by decide) (by norm_num)

/-- C10: with the other required fields present, the recipient is accepted
exactly when it matches `^[^\s@]+@[^\s@]+\.[^\s@]+$` (one or more
non-whitespace-non-@ characters, `@`, the same, a literal dot, the same);
a match failure is answered with the invalid-email validation error and no
record or job is created.  In particular `a@b` (no dot after the `@`) and
`a b@c.d` (whitespace) are rejected while `a@b.c` is accepted. -/
theorem c10_recipient_regex
    (req : SubmitRequest) (senderId : String) (nowMs : Int) (newId : String)
    (records : List EmailRecord) (queue : List QueuedJob)
    (hr : truthy req.recipient = true) (hs : truthy req.subject = true)
    (hb : truthy req.body = true) :
    (emailRegexTest (req.recipient.getD "") = false →
      handleSchedule req senderId nowMs newId records queue =
        { response := Except.error SubmitError.invalidEmail
          records := records, queue := queue }) ∧
    (emailRegexTest (req.recipient.getD "") = true →
      (handleSchedule req senderId nowMs newId records queue).response
        ≠ Except.error SubmitError.invalidEmail) ∧
    emailRegexTest "a@b" = false ∧
    emailRegexTest "a b@c.d" = false ∧
    emailRegexTest "a@b.c" = true := by
  have hb1 : (!truthy req.recipient || !truthy req.subject || !truthy req.body)
      = false := by simp [hr, hs, hb]
  refine ⟨?_, ?_, by decide, by decide, by decide⟩
  · intro he
    simp [handleSchedule, hb1, he]
  · intro he
    have hb2 : (!emailRegexTest (req.recipient.getD "")) = false := by simp [he]
    simp only [handleSchedule, hb1, hb2, Bool.false_eq_true, if_false]
    cases hsched : req.scheduledAt with
    | none => simp [scheduleSuccess]
    | some o =>
        cases o with
        | none => simp
        | some t =>
            by_cases hpast : t - nowMs < 0
            · simp [hpast]
            · simp [hpast, scheduleSuccess]

/-- C10 witness: `a@b` is rejected with the invalid-email error and nothing
created; `a@b.c` is not rejected for its format. -/
theorem c10_witness :
    (handleSchedule creqBadEmail "s1" 100 "id1" [] [] =
      { response := Except.error SubmitError.invalidEmail
        records := [], queue := [] }) ∧
    (handleSchedule creqNoSched "s1" 100 "id1" [] []).response
        ≠ Except.error SubmitError.invalidEmail := by
  constructor
  · exact (c10_recipient_regex creqBadEmail "s1" 100 "id1" [] []
      rfl rfl rfl).1 (by decide)
  · exact (c10_recipient_regex creqNoSched "s1" 100 "id1" [] []
      rfl rfl rfl).2.1 (by decide)

end EmailScheduler
